import Mathlib

/-!
# BluetoothSpeaker: `app_main` of `main/play_bt_music_example.c`

The program is one C function, `app_main`, that drives the ESP-ADF audio
framework: it builds a pipeline `bt -> equalizer -> i2s`, listens to the event
interface in an endless loop, and tears the pipeline down when the loop is left.

Embedding.  Every call that `app_main` makes into ESP-IDF / ESP-ADF is recorded
as an `Action`; a run of `app_main` is the list of the actions it issues, in
program order.  What the framework hands back to the program is an input of the
model:

* the numeric value of every header constant that the program compares with a
  field of a message, and the handles returned by the constructor calls, are
  the fields of `Env` (the headers are not part of the repository);
* what `audio_event_iface_listen` delivers in one turn of the loop is an
  `Input`;
* the results of the two fallible NVS calls are a `Boot`.

Calls that only return a value and are used inside a condition
(`get_input_*_id`, `esp_periph_set_get_by_id`, `esp_periph_set_get_event_iface`)
are read from `Env` and leave no entry in the trace.
-/

namespace BluetoothSpeaker

/-! ## Data -/

/-- The fields of `audio_element_info_t` that `app_main` reads (lines 131-135).
The struct is copied as a whole by `audio_element_getinfo` /
`audio_element_setinfo`. -/
structure audio_element_info_t where
  sample_rates : Int
  bits : Int
  channels : Int
deriving DecidableEq, Repr

/-- The message filled in by `audio_event_iface_listen`.  `source` is a pointer,
`data` is the pointer-sized payload that the program reads as `(int) msg.data`. -/
structure audio_event_iface_msg_t where
  cmd : Int
  data : Int
  data_len : Int
  source : Nat
  source_type : Int
deriving DecidableEq, Repr

/-- Header constants that `app_main` only passes on to a call and never compares
with anything.  They are kept symbolic. -/
inductive HeaderConst where
  | GPIO_MODE_OUTPUT
  | ESP_LOG_INFO
  | ESP_LOG_DEBUG
  | BLUETOOTH_A2DP_SINK
  | AUDIO_HAL_CODEC_MODE_DECODE
  | AUDIO_HAL_CTRL_START
  | AUDIO_STREAM_WRITER
deriving DecidableEq, Repr

/-- The environment of `app_main`: header constants that are compared with
message fields, the handles returned by the constructor calls, and the button
ids of the board. -/
structure Env where
  -- esp_err.h / nvs.h
  ESP_OK : Int
  ESP_ERR_NVS_NO_FREE_PAGES : Int
  -- audio_element.h : audio_element_msg_cmd_t
  AEL_MSG_CMD_ERROR : Int
  AEL_MSG_CMD_REPORT_STATUS : Int
  AEL_MSG_CMD_REPORT_MUSIC_INFO : Int
  -- audio_element.h : audio_element_status_t
  AEL_STATUS_STATE_STOPPED : Int
  AEL_STATUS_STATE_FINISHED : Int
  -- audio_common.h / esp_peripherals.h : source types
  AUDIO_ELEMENT_TYPE_ELEMENT : Int
  PERIPH_ID_TOUCH : Int
  PERIPH_ID_BLUETOOTH : Int
  -- periph_touch.h / bluetooth_service.h : peripheral commands
  PERIPH_TOUCH_TAP : Int
  PERIPH_BLUETOOTH_DISCONNECTED : Int
  -- board.h : logical button ids
  get_input_play_id : Int
  get_input_set_id : Int
  get_input_volup_id : Int
  get_input_voldown_id : Int
  -- handles
  board_audio_hal : Nat
  pipeline : Nat
  equalizer : Nat
  i2s_stream_writer : Nat
  bt_stream_reader : Nat
  set : Nat
  bt_periph : Nat
  evt : Nat
  /-- the value of `esp_periph_set_get_by_id(set, PERIPH_ID_TOUCH)` -/
  touch_periph : Nat
  /-- the value of `esp_periph_set_get_event_iface(set)` -/
  periph_event_iface : Nat
  /-- whether control comes back from `esp_restart()` (ESP-IDF declares it
  as not returning) -/
  esp_restart_returns : Bool

/-- One call issued by `app_main`. -/
inductive Action where
  | nvs_flash_init
  | nvs_flash_erase
  | abort
  | gpio_pad_select_gpio (pin : Nat)
  | gpio_set_direction (pin : Nat) (mode : HeaderConst)
  | gpio_set_level (pin : Nat) (level : Nat)
  | esp_log_level_set (tag : String) (level : HeaderConst)
  | ESP_LOGI (fmt : String) (args : List Int)
  | ESP_LOGW (fmt : String) (args : List Int)
  | ESP_LOGE (fmt : String) (args : List Int)
  | bluetooth_service_start (device_name : String) (mode : HeaderConst)
  | audio_board_init
  | audio_hal_ctrl_codec (hal : Nat) (mode : HeaderConst) (ctrl : HeaderConst)
  | audio_pipeline_init
  | equalizer_init (set_gain : List Int)
  | i2s_stream_init (type : HeaderConst)
  | bluetooth_service_create_stream
  | audio_pipeline_register (pipeline : Nat) (el : Nat) (name : String)
  | audio_pipeline_link (pipeline : Nat) (link_tag : List String) (link_num : Nat)
  | esp_periph_set_init
  | audio_board_key_init (set : Nat)
  | bluetooth_service_create_periph
  | esp_periph_start (set : Nat) (periph : Nat)
  | audio_event_iface_init
  | audio_pipeline_set_listener (pipeline : Nat) (evt : Nat)
  | audio_event_iface_set_listener (iface : Nat) (evt : Nat)
  | audio_pipeline_run (pipeline : Nat)
  | audio_event_iface_listen (evt : Nat)
  | audio_element_getinfo (el : Nat)
  | audio_element_setinfo (el : Nat) (info : audio_element_info_t)
  | i2s_stream_set_clk (el : Nat) (rate : Int) (bits : Int) (ch : Int)
  | periph_bluetooth_play (periph : Nat)
  | periph_bluetooth_pause (periph : Nat)
  | periph_bluetooth_next (periph : Nat)
  | periph_bluetooth_prev (periph : Nat)
  | esp_restart
  | audio_pipeline_terminate (pipeline : Nat)
  | audio_pipeline_unregister (pipeline : Nat) (el : Nat)
  | audio_pipeline_remove_listener (pipeline : Nat)
  | esp_periph_set_stop_all (set : Nat)
  | audio_event_iface_remove_listener (iface : Nat) (evt : Nat)
  | audio_event_iface_destroy (evt : Nat)
  | audio_pipeline_deinit (pipeline : Nat)
  | audio_element_deinit (el : Nat)
  | esp_periph_set_destroy (set : Nat)
  | bluetooth_service_destroy
deriving DecidableEq, Repr

/-- What one call of `audio_event_iface_listen(evt, &msg, portMAX_DELAY)` hands
to the loop body: its return value, the message, and the info that
`audio_element_getinfo(bt_stream_reader, ...)` yields during this turn. -/
structure Input where
  ret : Int
  msg : audio_event_iface_msg_t
  music_info : audio_element_info_t
deriving DecidableEq, Repr

/-- Results of the fallible calls at the top of `app_main`. -/
structure Boot where
  nvs_flash_init : Int
  nvs_flash_erase : Int
deriving DecidableEq, Repr

/-- How one turn of the `while (1)` loop ends: `continue` / falling off the end
of the body (`cont`), `break` (`brk`), or `esp_restart()` not coming back
(`halt`). -/
inductive Ctl where
  | cont
  | brk
  | halt
deriving DecidableEq, Repr

/-- How the whole loop ends for a finite sequence of inputs: still blocked in
`audio_event_iface_listen` after the last input, left by `break`, or halted in
`esp_restart()`. -/
inductive LoopEnd where
  | blocked
  | left
  | halted
deriving DecidableEq, Repr

/-! ## The equalizer gains (lines 63-68) -/

/-- A constant of a C initializer list: an integer constant such as `5`, or a
decimal floating constant such as `2.5`, kept exactly as its digits
(`mantissa / 10 ^ decimals`). -/
inductive CConst where
  | int (n : Int)
  | dbl (mantissa : Int) (decimals : Nat)
deriving DecidableEq, Repr

/-- The number a constant denotes. -/
def CConst.value : CConst → ℚ
  | .int n => (n : ℚ)
  | .dbl m d => (m : ℚ) / (10 : ℚ) ^ d

/-- The value stored when the constant initialises an object of type `int`: an
integer constant is stored as it is, a floating constant is converted by
discarding its fractional part (truncation toward zero). -/
def CConst.to_int : CConst → Int
  | .int n => n
  | .dbl m d => Int.tdiv m (10 ^ d)

/-- The initializer list of `set_gain` as it is written in the source (line 65):
`{ 5, 2.5, 1, 0, 0, 0, 0, 0, 0, 0, 5, 2.5, 1, 0, 0, 0, 0, 0, 0, 0}`. -/
def set_gain_initializer : List CConst :=
  [.int 5, .dbl 25 1, .int 1, .int 0, .int 0, .int 0, .int 0, .int 0, .int 0, .int 0,
   .int 5, .dbl 25 1, .int 1, .int 0, .int 0, .int 0, .int 0, .int 0, .int 0, .int 0]

/-- The array `int set_gain[]` after its definition. -/
def set_gain : List Int := set_gain_initializer.map CConst.to_int

/-! ## The loop body (lines 113-175) -/

/-- Lines 121-124: the error log. -/
def error_check (env : Env) (msg : audio_event_iface_msg_t) : List Action :=
  if msg.cmd = env.AEL_MSG_CMD_ERROR then
    [.ESP_LOGE "[ * ] Action command error: src_type:%d, source:%p cmd:%d, data:%p, data_len:%d"
      [msg.source_type, (msg.source : Int), msg.cmd, msg.data, msg.data_len]]
  else []

/-- Lines 126-137: the condition of the music-info branch. -/
def is_music_info (env : Env) (msg : audio_event_iface_msg_t) : Bool :=
  msg.source_type = env.AUDIO_ELEMENT_TYPE_ELEMENT && msg.source = env.bt_stream_reader
    && msg.cmd = env.AEL_MSG_CMD_REPORT_MUSIC_INFO

/-- Lines 128-135: the body of the music-info branch. -/
def apply_music_info (env : Env) (music_info : audio_element_info_t) : List Action :=
  [.audio_element_getinfo env.bt_stream_reader,
   .ESP_LOGI "[ * ] Receive music info from Bluetooth, sample_rates=%d, bits=%d, ch=%d"
      [music_info.sample_rates, music_info.bits, music_info.channels],
   .audio_element_setinfo env.i2s_stream_writer music_info,
   .i2s_stream_set_clk env.i2s_stream_writer music_info.sample_rates music_info.bits
      music_info.channels]

/-- Lines 139-156: the touch branch. -/
def touch_branch (env : Env) (msg : audio_event_iface_msg_t) : List Action :=
  if msg.source_type = env.PERIPH_ID_TOUCH ∧ msg.cmd = env.PERIPH_TOUCH_TAP
      ∧ msg.source = env.touch_periph then
    if msg.data = env.get_input_play_id then
      [.ESP_LOGI "[ * ] [Play] touch tap event" [], .periph_bluetooth_play env.bt_periph]
    else if msg.data = env.get_input_set_id then
      [.ESP_LOGI "[ * ] [Set] touch tap event" [], .periph_bluetooth_pause env.bt_periph]
    else if msg.data = env.get_input_volup_id then
      [.ESP_LOGI "[ * ] [Vol+] touch tap event" [], .periph_bluetooth_next env.bt_periph]
    else if msg.data = env.get_input_voldown_id then
      [.ESP_LOGI "[ * ] [Vol-] touch tap event" [], .periph_bluetooth_prev env.bt_periph]
    else []
  else []

/-- Lines 159-167: the condition under which `esp_restart()` is reached. -/
def is_disconnect (env : Env) (msg : audio_event_iface_msg_t) : Bool :=
  (msg.source_type = env.PERIPH_ID_BLUETOOTH && msg.source = env.bt_periph)
    && msg.cmd = env.PERIPH_BLUETOOTH_DISCONNECTED

/-- Lines 169-171: the condition of the stop branch. -/
def is_stop (env : Env) (msg : audio_event_iface_msg_t) : Bool :=
  msg.source_type = env.AUDIO_ELEMENT_TYPE_ELEMENT && msg.source = env.i2s_stream_writer
    && msg.cmd = env.AEL_MSG_CMD_REPORT_STATUS
    && (msg.data = env.AEL_STATUS_STATE_STOPPED || msg.data = env.AEL_STATUS_STATE_FINISHED)

/-- One turn of the `while (1)` loop after `audio_event_iface_listen` has
returned: the actions issued, and how the turn ends. -/
def loop_body (env : Env) (inp : Input) : List Action × Ctl :=
  if inp.ret ≠ env.ESP_OK then
    ([.ESP_LOGE "[ * ] Event interface error : %d" [inp.ret]], .cont)
  else if is_music_info env inp.msg then
    (error_check env inp.msg ++ apply_music_info env inp.music_info, .cont)
  else if is_disconnect env inp.msg then
    (error_check env inp.msg ++ touch_branch env inp.msg ++
      [.ESP_LOGW "[ * ] Bluetooth disconnected" [], .ESP_LOGW "[ * ] ESP RESTARTING" [],
       .esp_restart],
     if env.esp_restart_returns then .brk else .halt)
  else if is_stop env inp.msg then
    (error_check env inp.msg ++ touch_branch env inp.msg ++
      [.ESP_LOGW "[ * ] Stop event received" []], .brk)
  else
    (error_check env inp.msg ++ touch_branch env inp.msg, .cont)

/-- The `while (1)` loop over the inputs delivered by the event interface. -/
def listen_loop (env : Env) : List Input → List Action × LoopEnd
  | [] => ([.audio_event_iface_listen env.evt], .blocked)
  | inp :: rest =>
    match loop_body env inp with
    | (acts, .cont) =>
      (.audio_event_iface_listen env.evt :: acts ++ (listen_loop env rest).1,
        (listen_loop env rest).2)
    | (acts, .brk) => (.audio_event_iface_listen env.evt :: acts, .left)
    | (acts, .halt) => (.audio_event_iface_listen env.evt :: acts, .halted)

/-! ## Start-up (lines 32-112) and teardown (lines 177-199) -/

/-- Lines 32-38: NVS initialisation.  The second component tells whether
`ESP_ERROR_CHECK` aborted the program. -/
def nvs_stage (env : Env) (boot : Boot) : List Action × Bool :=
  if boot.nvs_flash_init = env.ESP_ERR_NVS_NO_FREE_PAGES then
    if boot.nvs_flash_erase ≠ env.ESP_OK then
      ([.nvs_flash_init, .nvs_flash_erase, .abort], true)
    else
      ([.nvs_flash_init, .nvs_flash_erase, .nvs_flash_init], false)
  else
    ([.nvs_flash_init], false)

/-- The tag used for `esp_log_level_set` (line 25). -/
def TAG : String := "BLUETOOTH_EXAMPLE"

/-- Lines 40-76: from powering the DAC to the creation of the three elements. -/
def create_stage (env : Env) : List Action :=
  [.gpio_pad_select_gpio 33,
   .gpio_set_direction 33 .GPIO_MODE_OUTPUT,
   .gpio_set_level 33 1,
   .esp_log_level_set "*" .ESP_LOG_INFO,
   .esp_log_level_set TAG .ESP_LOG_DEBUG,
   .ESP_LOGI "[ 1 ] Create Bluetooth service" [],
   .bluetooth_service_start "MAKERSPACE-SPEAKER" .BLUETOOTH_A2DP_SINK,
   .ESP_LOGI "[ 2 ] Start codec chip" [],
   .audio_board_init,
   .audio_hal_ctrl_codec env.board_audio_hal .AUDIO_HAL_CODEC_MODE_DECODE .AUDIO_HAL_CTRL_START,
   .ESP_LOGI "[ 3 ] Create audio pipeline for playback" [],
   .audio_pipeline_init,
   .ESP_LOGI "[ 3.01 ] Create equalizer" [],
   .equalizer_init set_gain,
   .ESP_LOGI "[3.1] Create i2s stream to write data to codec chip" [],
   .i2s_stream_init .AUDIO_STREAM_WRITER,
   .ESP_LOGI "[3.2] Get Bluetooth stream" [],
   .bluetooth_service_create_stream]

/-- Lines 78-84: registration of the elements and the link call. -/
def register_stage (env : Env) : List Action :=
  [.ESP_LOGI "[3.2] Register all elements to audio pipeline" [],
   .audio_pipeline_register env.pipeline env.bt_stream_reader "bt",
   .audio_pipeline_register env.pipeline env.i2s_stream_writer "i2s",
   .audio_pipeline_register env.pipeline env.equalizer "equalizer",
   .ESP_LOGI
     "[3.3] Link it together [Bluetooth]-->bt_stream_reader-->i2s_stream_writer-->[codec_chip]" [],
   .audio_pipeline_link env.pipeline ["bt", "equalizer", "i2s"] 3]

/-- Lines 86-112: peripherals, event interface, start of the pipeline. -/
def listen_stage (env : Env) : List Action :=
  [.ESP_LOGI "[ 4 ] Initialize peripherals" [],
   .esp_periph_set_init,
   .ESP_LOGI "[4.1] Initialize Touch peripheral" [],
   .audio_board_key_init env.set,
   .ESP_LOGI "[4.2] Create Bluetooth peripheral" [],
   .bluetooth_service_create_periph,
   .ESP_LOGI "[4.2] Start all peripherals" [],
   .esp_periph_start env.set env.bt_periph,
   .ESP_LOGI "[ 5 ] Set up  event listener" [],
   .audio_event_iface_init,
   .ESP_LOGI "[5.1] Listening event from all elements of pipeline" [],
   .audio_pipeline_set_listener env.pipeline env.evt,
   .ESP_LOGI "[5.2] Listening event from peripherals" [],
   .audio_event_iface_set_listener env.periph_event_iface env.evt,
   .ESP_LOGI "[ 6 ] Start audio_pipeline" [],
   .audio_pipeline_run env.pipeline,
   .ESP_LOGI "[ 7 ] Listen for all pipeline events" []]

/-- Lines 40-112. -/
def setup (env : Env) : List Action :=
  create_stage env ++ register_stage env ++ listen_stage env

/-- Lines 177-199: the code after the loop. -/
def teardown (env : Env) : List Action :=
  [.ESP_LOGI "[ 8 ] Stop audio_pipeline" [],
   .audio_pipeline_terminate env.pipeline,
   .audio_pipeline_unregister env.pipeline env.bt_stream_reader,
   .audio_pipeline_unregister env.pipeline env.i2s_stream_writer,
   .audio_pipeline_remove_listener env.pipeline,
   .esp_periph_set_stop_all env.set,
   .audio_event_iface_remove_listener env.periph_event_iface env.evt,
   .audio_event_iface_destroy env.evt,
   .audio_pipeline_deinit env.pipeline,
   .audio_element_deinit env.bt_stream_reader,
   .audio_element_deinit env.i2s_stream_writer,
   .audio_element_deinit env.equalizer,
   .esp_periph_set_destroy env.set,
   .bluetooth_service_destroy]

/-- The part of `app_main` from the loop on (lines 113-199): the teardown runs
only when the loop is left by `break`. -/
def loop_and_teardown (env : Env) (events : List Input) : List Action :=
  match listen_loop env events with
  | (acts, .left) => acts ++ teardown env
  | (acts, _) => acts

/-- The trace of `app_main`. -/
def app_main (env : Env) (boot : Boot) (events : List Input) : List Action :=
  match nvs_stage env boot with
  | (acts, true) => acts
  | (acts, false) => acts ++ setup env ++ loop_and_teardown env events

/-! ## What the framework calls do to the sink -/

/-- The stored info and the configured clock of every element handle. -/
structure World where
  info : Nat → audio_element_info_t
  clk : Nat → Option (Int × Int × Int)

/-- Modelled from the spec: the bodies of `audio_element_setinfo` and
`i2s_stream_set_clk` belong to the audio framework and are not under `src/`.
Following the spec (an element has a StreamFormat that is "settable and
gettable"; the control loop "calls `set_format` on the terminal sink element and
reconfigures the sink's hardware clocking"), `audio_element_setinfo` stores the
info on the element it is given, `i2s_stream_set_clk` sets the clock triple of
the stream it is given, and no other call of `app_main` touches either. -/
def World.apply (w : World) : Action → World
  | .audio_element_setinfo el i =>
    { w with info := fun h => if h = el then i else w.info h }
  | .i2s_stream_set_clk el r b c =>
    { w with clk := fun h => if h = el then some (r, b, c) else w.clk h }
  | _ => w

/-- Effect of a sequence of calls, in order. -/
def World.run (w : World) (acts : List Action) : World := acts.foldl World.apply w

/-! ## Reading a trace -/

/-- Every occurrence of `b` in `t` has an `a` somewhere before it. -/
def precededBy (a b : Action) (t : List Action) : Prop :=
  ∀ pre post, t = pre ++ b :: post → a ∈ pre

/-- Executable form of `precededBy`: scanning from the left, `a` is met before
the first `b`. -/
def precededByB (a b : Action) : List Action → Bool
  | [] => true
  | x :: xs => if x = b then false else if x = a then true else precededByB a b xs

/-- Calls that stop or dismantle the pipeline, or restart the chip. -/
def Action.dismantles : Action → Bool
  | .esp_restart => true
  | .abort => true
  | .audio_pipeline_terminate _ => true
  | .audio_pipeline_unregister _ _ => true
  | .audio_pipeline_remove_listener _ => true
  | .esp_periph_set_stop_all _ => true
  | .audio_event_iface_remove_listener _ _ => true
  | .audio_event_iface_destroy _ => true
  | .audio_pipeline_deinit _ => true
  | .audio_element_deinit _ => true
  | .esp_periph_set_destroy _ => true
  | .bluetooth_service_destroy => true
  | _ => false

/-- Calls that store a format on an element or set its clock. -/
def Action.sets_format : Action → Bool
  | .audio_element_setinfo _ _ => true
  | .i2s_stream_set_clk _ _ _ _ => true
  | _ => false

/-- Calls to the bluetooth peripheral (`periph_bluetooth_play` and so on). -/
def Action.is_periph_bluetooth : Action → Bool
  | .periph_bluetooth_play _ => true
  | .periph_bluetooth_pause _ => true
  | .periph_bluetooth_next _ => true
  | .periph_bluetooth_prev _ => true
  | _ => false

/-- Error logs. -/
def Action.is_error_log : Action → Bool
  | .ESP_LOGE _ _ => true
  | _ => false

/-- Calls that belong to the teardown code after the loop (lines 178-199). -/
def Action.in_teardown : Action → Bool
  | .audio_pipeline_terminate _ => true
  | .audio_pipeline_unregister _ _ => true
  | .audio_pipeline_remove_listener _ => true
  | .esp_periph_set_stop_all _ => true
  | .audio_event_iface_remove_listener _ _ => true
  | .audio_event_iface_destroy _ => true
  | .audio_pipeline_deinit _ => true
  | .audio_element_deinit _ => true
  | .esp_periph_set_destroy _ => true
  | .bluetooth_service_destroy => true
  | _ => false

/-- The `(name, element)` pairs registered before the first
`audio_pipeline_link` call of a trace. -/
def registered_before_link : List Action → List (String × Nat)
  | [] => []
  | .audio_pipeline_link _ _ _ :: _ => []
  | .audio_pipeline_register _ el name :: rest => (name, el) :: registered_before_link rest
  | _ :: rest => registered_before_link rest

/-- The arguments `link_tag`, `link_num` of the first `audio_pipeline_link`
call of a trace. -/
def first_link : List Action → Option (List String × Nat)
  | [] => none
  | .audio_pipeline_link _ tags n :: _ => some (tags, n)
  | _ :: rest => first_link rest

/-- The element registered under a name. -/
def lookup_element (regs : List (String × Nat)) (name : String) : Option Nat :=
  (regs.find? (fun p => p.1 = name)).map (fun p => p.2)

/-- A link list over a set of registrations is a simple path: the registered
names are pairwise different, no name occurs twice in the link list, every
linked name is registered, and every registered name is linked. -/
def simple_path (regs : List (String × Nat)) (link : List String) : Prop :=
  (regs.map Prod.fst).Nodup ∧ link.Nodup ∧
    (∀ n ∈ link, n ∈ regs.map Prod.fst) ∧ (∀ n ∈ regs.map Prod.fst, n ∈ link)

/-! ## A concrete environment and concrete inputs -/

/-- The environment with the numbering of the ESP-ADF headers the example was
written against: `AEL_MSG_CMD_ERROR = 1`, `AEL_MSG_CMD_REPORT_STATUS = 8`,
`AEL_MSG_CMD_REPORT_MUSIC_INFO = 9` (audio_element.h);
`AEL_STATUS_STATE_STOPPED = 14`, `AEL_STATUS_STATE_FINISHED = 15`;
`AUDIO_ELEMENT_TYPE_ELEMENT = 1 << 17`, `AUDIO_ELEMENT_TYPE_PERIPH = 1 << 20`
(audio_common.h); `PERIPH_ID_TOUCH = AUDIO_ELEMENT_TYPE_PERIPH + 2`,
`PERIPH_ID_BLUETOOTH = AUDIO_ELEMENT_TYPE_PERIPH + 9` (esp_peripherals.h);
`PERIPH_TOUCH_TAP = 1` (periph_touch.h, the member after
`PERIPH_TOUCH_UNCHANGE = 0`); `PERIPH_BLUETOOTH_DISCONNECTED = 2`
(bluetooth_service.h); the touch pad numbers of the LyraT board for the four
buttons.  The handles are arbitrary pairwise different addresses. -/
def esp_adf_env : Env where
  ESP_OK := 0
  ESP_ERR_NVS_NO_FREE_PAGES := 4365
  AEL_MSG_CMD_ERROR := 1
  AEL_MSG_CMD_REPORT_STATUS := 8
  AEL_MSG_CMD_REPORT_MUSIC_INFO := 9
  AEL_STATUS_STATE_STOPPED := 14
  AEL_STATUS_STATE_FINISHED := 15
  AUDIO_ELEMENT_TYPE_ELEMENT := 131072
  PERIPH_ID_TOUCH := 1048578
  PERIPH_ID_BLUETOOTH := 1048585
  PERIPH_TOUCH_TAP := 1
  PERIPH_BLUETOOTH_DISCONNECTED := 2
  get_input_play_id := 8
  get_input_set_id := 9
  get_input_volup_id := 7
  get_input_voldown_id := 4
  board_audio_hal := 1000
  pipeline := 1001
  equalizer := 1002
  i2s_stream_writer := 1003
  bt_stream_reader := 1004
  set := 1005
  bt_periph := 1006
  evt := 1007
  touch_periph := 1008
  periph_event_iface := 1009
  esp_restart_returns := false

/-- The environment `esp_adf_env` with an `esp_restart()` that hands control
back to its caller. -/
def esp_adf_env_returning : Env := { esp_adf_env with esp_restart_returns := true }

/-- A start-up in which `nvs_flash_init` succeeds. -/
def boot_ok : Boot := { nvs_flash_init := 0, nvs_flash_erase := 0 }

/-- The bluetooth element reports the format `fmt`. -/
def music_info_event (fmt : audio_element_info_t) : Input where
  ret := 0
  msg := { cmd := 9, data := 0, data_len := 0, source := 1004, source_type := 131072 }
  music_info := fmt

/-- A tap on a touch pad (number 5) that is none of the four buttons. -/
def unknown_tap_event : Input where
  ret := 0
  msg := { cmd := 1, data := 5, data_len := 0, source := 1008, source_type := 1048578 }
  music_info := { sample_rates := 0, bits := 0, channels := 0 }

/-- The bluetooth peripheral reports that the link is gone. -/
def disconnect_event : Input where
  ret := 0
  msg := { cmd := 2, data := 0, data_len := 0, source := 1006, source_type := 1048585 }
  music_info := { sample_rates := 0, bits := 0, channels := 0 }

/-- The sink reports the status `status`. -/
def sink_status_event (status : Int) : Input where
  ret := 0
  msg := { cmd := 8, data := status, data_len := 0, source := 1003, source_type := 131072 }
  music_info := { sample_rates := 0, bits := 0, channels := 0 }

/-- A world in which nothing has been configured yet. -/
def World.blank : World where
  info := fun _ => { sample_rates := 0, bits := 0, channels := 0 }
  clk := fun _ => none

/-! ## Lemmas on traces -/

theorem precededByB_sound (a b : Action) (t : List Action)
    (h : precededByB a b t = true) : precededBy a b t := by
  induction t with
  | nil =>
    intro pre post hsplit
    simp at hsplit
  | cons x xs ih =>
    intro pre post hsplit
    by_cases hxb : x = b
    · simp [precededByB, hxb] at h
    · cases pre with
      | nil =>
        simp only [List.nil_append, List.cons.injEq] at hsplit
        exact absurd hsplit.1 hxb
      | cons p ps =>
        simp only [List.cons_append, List.cons.injEq] at hsplit
        obtain ⟨hx, hrest⟩ := hsplit
        subst hx
        by_cases hxa : x = a
        · simp [hxa]
        · simp only [precededByB, hxa, hxb, if_false] at h
          exact List.mem_cons_of_mem _ (ih h ps post hrest)

theorem precededBy_append (a b : Action) (A B : List Action)
    (hA : b ∉ A) (hB : precededBy a b B) : precededBy a b (A ++ B) := by
  intro pre post hsplit
  rcases List.append_eq_append_iff.mp hsplit with ⟨m, hpre, hm⟩ | ⟨m, hAeq, hm⟩
  · rw [hpre]
    exact List.mem_append_right _ (hB m post hm)
  · cases m with
    | nil =>
      simp only [List.nil_append] at hm
      simpa using hB [] post hm.symm
    | cons y ys =>
      simp only [List.cons_append, List.cons.injEq] at hm
      exact absurd (by rw [hAeq, hm.1]; simp) hA

theorem precededBy_of_not_mem (a b : Action) (t : List Action) (h : b ∉ t) :
    precededBy a b t := by
  intro pre post hsplit
  exact absurd (by rw [hsplit]; simp) h

/-! ## Lemmas on the loop body -/

theorem error_check_in_teardown (env : Env) (msg : audio_event_iface_msg_t) :
    ∀ x ∈ error_check env msg, x.in_teardown = false := by
  intro x hx
  unfold error_check at hx
  split at hx
  · simp at hx; subst hx; rfl
  · simp at hx

theorem touch_branch_in_teardown (env : Env) (msg : audio_event_iface_msg_t) :
    ∀ x ∈ touch_branch env msg, x.in_teardown = false := by
  intro x hx
  unfold touch_branch at hx
  split_ifs at hx <;> simp at hx <;> rcases hx with rfl | rfl <;> rfl

theorem loop_body_in_teardown (env : Env) (inp : Input) :
    ∀ x ∈ (loop_body env inp).1, x.in_teardown = false := by
  intro x hx
  have he := error_check_in_teardown env inp.msg x
  have ht := touch_branch_in_teardown env inp.msg x
  unfold loop_body at hx
  split_ifs at hx <;> dsimp only at hx <;>
    simp only [List.mem_append, List.mem_cons, List.mem_singleton, List.not_mem_nil, or_false,
      apply_music_info] at hx
  · subst hx; rfl
  · rcases hx with hx | rfl | rfl | rfl | rfl
    · exact he hx
    all_goals rfl
  · rcases hx with (hx | hx) | rfl | rfl | rfl
    · exact he hx
    · exact ht hx
    all_goals rfl
  · rcases hx with (hx | hx) | rfl | rfl | rfl
    · exact he hx
    · exact ht hx
    all_goals rfl
  · rcases hx with (hx | hx) | rfl
    · exact he hx
    · exact ht hx
    · rfl
  · rcases hx with hx | hx
    · exact he hx
    · exact ht hx

theorem listen_loop_in_teardown (env : Env) (events : List Input) :
    ∀ x ∈ (listen_loop env events).1, x.in_teardown = false := by
  induction events with
  | nil =>
    intro x hx
    simp [listen_loop] at hx
    subst hx; rfl
  | cons inp rest ih =>
    intro x hx
    have hb := loop_body_in_teardown env inp
    unfold listen_loop at hx
    split at hx
    next acts hlb =>
      rw [hlb] at hb
      simp only [List.cons_append, List.mem_cons, List.mem_append] at hx
      rcases hx with rfl | hx | hx
      · rfl
      · exact hb x hx
      · exact ih x hx
    next acts hlb =>
      rw [hlb] at hb
      simp only [List.mem_cons] at hx
      rcases hx with rfl | hx
      · rfl
      · exact hb x hx
    next acts hlb =>
      rw [hlb] at hb
      simp only [List.mem_cons] at hx
      rcases hx with rfl | hx
      · rfl
      · exact hb x hx

theorem nvs_stage_in_teardown (env : Env) (boot : Boot) :
    ∀ x ∈ (nvs_stage env boot).1, x.in_teardown = false := by
  intro x hx
  unfold nvs_stage at hx
  split_ifs at hx <;> dsimp only at hx <;>
    simp only [List.mem_cons, List.mem_singleton, List.not_mem_nil, or_false] at hx
  · rcases hx with rfl | rfl | rfl <;> rfl
  · rcases hx with rfl | rfl | rfl <;> rfl
  · subst hx; rfl

theorem setup_in_teardown (env : Env) :
    ∀ x ∈ setup env, x.in_teardown = false := by
  intro x hx
  simp only [setup, create_stage, register_stage, listen_stage, List.mem_append,
    List.mem_cons, List.mem_singleton, List.not_mem_nil, or_false] at hx
  rcases hx with (hx | hx) | hx
  · rcases hx with rfl | rfl | rfl | rfl | rfl | rfl | rfl | rfl | rfl | rfl | rfl | rfl | rfl |
      rfl | rfl | rfl | rfl | rfl <;> rfl
  · rcases hx with rfl | rfl | rfl | rfl | rfl | rfl <;> rfl
  · rcases hx with rfl | rfl | rfl | rfl | rfl | rfl | rfl | rfl | rfl | rfl | rfl | rfl | rfl |
      rfl | rfl | rfl | rfl <;> rfl

/-- Every trace of `app_main` is a part without teardown calls, followed either
by nothing or by the whole teardown code. -/
theorem app_main_shape (env : Env) (boot : Boot) (events : List Input) :
    ∃ A, (∀ x ∈ A, x.in_teardown = false) ∧
      (app_main env boot events = A ∨ app_main env boot events = A ++ teardown env) := by
  have hn := nvs_stage_in_teardown env boot
  have hl := listen_loop_in_teardown env events
  have hs := setup_in_teardown env
  unfold app_main
  split
  next acts h =>
    rw [h] at hn
    exact ⟨acts, hn, Or.inl rfl⟩
  next acts h =>
    rw [h] at hn
    unfold loop_and_teardown
    split
    next lacts hl2 =>
      rw [hl2] at hl
      refine ⟨acts ++ setup env ++ lacts, ?_, Or.inr (by simp)⟩
      intro x hx
      simp only [List.mem_append] at hx
      rcases hx with (hx | hx) | hx
      · exact hn x hx
      · exact hs x hx
      · exact hl x hx
    next lacts e hne hl2 =>
      rw [hl2] at hl
      refine ⟨acts ++ setup env ++ lacts, ?_, Or.inl rfl⟩
      intro x hx
      simp only [List.mem_append] at hx
      rcases hx with (hx | hx) | hx
      · exact hn x hx
      · exact hs x hx
      · exact hl x hx

theorem precededBy_app_main (env : Env) (boot : Boot) (events : List Input) (a b : Action)
    (hb : b.in_teardown = true) (h : precededByB a b (teardown env) = true) :
    precededBy a b (app_main env boot events) := by
  obtain ⟨A, hA, hshape | hshape⟩ := app_main_shape env boot events
  · rw [hshape]
    apply precededBy_of_not_mem
    intro hmem
    rw [hA b hmem] at hb
    exact Bool.noConfusion hb
  · rw [hshape]
    apply precededBy_append
    · intro hmem
      rw [hA b hmem] at hb
      exact Bool.noConfusion hb
    · exact precededByB_sound a b _ h

theorem app_main_ends_with_teardown (env : Env) (boot : Boot) (events : List Input)
    (hboot : (nvs_stage env boot).2 = false) (hleft : (listen_loop env events).2 = .left) :
    ∃ pre, app_main env boot events = pre ++ teardown env := by
  rcases hn : nvs_stage env boot with ⟨nacts, ab⟩
  rcases hl : listen_loop env events with ⟨lacts, e⟩
  rw [hn] at hboot
  rw [hl] at hleft
  simp only at hboot hleft
  subst hboot
  subst hleft
  refine ⟨nacts ++ setup env ++ lacts, ?_⟩
  simp [app_main, loop_and_teardown, hn, hl]

/-! ## Lemmas on the music-info branch -/

theorem run_append (w : World) (xs ys : List Action) :
    w.run (xs ++ ys) = (w.run xs).run ys := by
  simp [World.run]

theorem run_error_check (env : Env) (msg : audio_event_iface_msg_t) (w : World) :
    w.run (error_check env msg) = w := by
  unfold error_check
  split <;> simp [World.run, World.apply]

theorem loop_body_music_info (env : Env) (inp : Input)
    (hret : inp.ret = env.ESP_OK)
    (hty : inp.msg.source_type = env.AUDIO_ELEMENT_TYPE_ELEMENT)
    (hsrc : inp.msg.source = env.bt_stream_reader)
    (hcmd : inp.msg.cmd = env.AEL_MSG_CMD_REPORT_MUSIC_INFO) :
    loop_body env inp =
      (error_check env inp.msg ++ apply_music_info env inp.music_info, .cont) := by
  simp [loop_body, is_music_info, hret, hty, hsrc, hcmd]

theorem run_apply_music_info (env : Env) (fmt : audio_element_info_t) (w : World) :
    w.run (apply_music_info env fmt) =
      { info := fun h => if h = env.i2s_stream_writer then fmt else w.info h
        clk := fun h => if h = env.i2s_stream_writer then
          some (fmt.sample_rates, fmt.bits, fmt.channels) else w.clk h } := by
  simp [World.run, World.apply, apply_music_info]

theorem error_check_sets_format (env : Env) (msg : audio_event_iface_msg_t) :
    (error_check env msg).filter Action.sets_format = [] := by
  unfold error_check
  split <;> simp [Action.sets_format]

theorem error_check_dismantles (env : Env) (msg : audio_event_iface_msg_t) :
    ∀ x ∈ error_check env msg, x.dismantles = false := by
  intro x hx
  unfold error_check at hx
  split at hx
  · simp at hx; subst hx; rfl
  · simp at hx

/-! ## Properties of `app_main` -/

/-- C1: when a turn of the loop receives `REPORT_MUSIC_INFO` from
`bt_stream_reader`, then, whatever was configured before, the info stored on
`i2s_stream_writer` afterwards is the reported one, its clock is the reported
triple, and the format calls of the turn are exactly one
`audio_element_setinfo` and one `i2s_stream_set_clk` on `i2s_stream_writer`
with that info and that triple. -/
theorem music_info_applied (env : Env) (inp : Input) (w : World)
    (hret : inp.ret = env.ESP_OK)
    (hty : inp.msg.source_type = env.AUDIO_ELEMENT_TYPE_ELEMENT)
    (hsrc : inp.msg.source = env.bt_stream_reader)
    (hcmd : inp.msg.cmd = env.AEL_MSG_CMD_REPORT_MUSIC_INFO) :
    (w.run (loop_body env inp).1).info env.i2s_stream_writer = inp.music_info ∧
    (w.run (loop_body env inp).1).clk env.i2s_stream_writer =
      some (inp.music_info.sample_rates, inp.music_info.bits, inp.music_info.channels) ∧
    (loop_body env inp).1.filter Action.sets_format =
      [.audio_element_setinfo env.i2s_stream_writer inp.music_info,
       .i2s_stream_set_clk env.i2s_stream_writer inp.music_info.sample_rates
         inp.music_info.bits inp.music_info.channels] := by
  rw [loop_body_music_info env inp hret hty hsrc hcmd]
  refine ⟨?_, ?_, ?_⟩
  · simp [run_append, run_error_check, run_apply_music_info]
  · simp [run_append, run_error_check, run_apply_music_info]
  · simp [List.filter_append, error_check_sets_format, apply_music_info, Action.sets_format]

theorem music_info_applied_witness :
    (World.blank.run (loop_body esp_adf_env (music_info_event ⟨44100, 16, 2⟩)).1).info
        esp_adf_env.i2s_stream_writer = (music_info_event ⟨44100, 16, 2⟩).music_info ∧
    (World.blank.run (loop_body esp_adf_env (music_info_event ⟨44100, 16, 2⟩)).1).clk
        esp_adf_env.i2s_stream_writer =
      some ((music_info_event ⟨44100, 16, 2⟩).music_info.sample_rates,
        (music_info_event ⟨44100, 16, 2⟩).music_info.bits,
        (music_info_event ⟨44100, 16, 2⟩).music_info.channels) ∧
    (loop_body esp_adf_env (music_info_event ⟨44100, 16, 2⟩)).1.filter Action.sets_format =
      [.audio_element_setinfo esp_adf_env.i2s_stream_writer
         (music_info_event ⟨44100, 16, 2⟩).music_info,
       .i2s_stream_set_clk esp_adf_env.i2s_stream_writer
         (music_info_event ⟨44100, 16, 2⟩).music_info.sample_rates
         (music_info_event ⟨44100, 16, 2⟩).music_info.bits
         (music_info_event ⟨44100, 16, 2⟩).music_info.channels] :=
  music_info_applied esp_adf_env (music_info_event ⟨44100, 16, 2⟩) World.blank rfl rfl rfl rfl

/-- C5: in every trace of `app_main`, a call of `audio_pipeline_remove_listener`
comes only after `audio_pipeline_terminate`, and a call of
`audio_event_iface_destroy` or of `audio_pipeline_deinit` comes only after both
`audio_pipeline_remove_listener` and `audio_event_iface_remove_listener`; and
whenever the loop is left by `break`, the trace ends with the whole teardown
code, so these calls are then really made. -/
theorem listener_removed_in_order (env : Env) (boot : Boot) (events : List Input) :
    (∀ p, precededBy (.audio_pipeline_terminate env.pipeline)
      (.audio_pipeline_remove_listener p) (app_main env boot events)) ∧
    (∀ e, precededBy (.audio_pipeline_remove_listener env.pipeline)
      (.audio_event_iface_destroy e) (app_main env boot events)) ∧
    (∀ e, precededBy (.audio_event_iface_remove_listener env.periph_event_iface env.evt)
      (.audio_event_iface_destroy e) (app_main env boot events)) ∧
    (∀ p, precededBy (.audio_pipeline_remove_listener env.pipeline)
      (.audio_pipeline_deinit p) (app_main env boot events)) ∧
    (∀ p, precededBy (.audio_event_iface_remove_listener env.periph_event_iface env.evt)
      (.audio_pipeline_deinit p) (app_main env boot events)) ∧
    ((nvs_stage env boot).2 = false → (listen_loop env events).2 = .left →
      ∃ pre, app_main env boot events = pre ++ teardown env) := by
  refine ⟨?_, ?_, ?_, ?_, ?_, app_main_ends_with_teardown env boot events⟩ <;>
    intro p <;>
    exact precededBy_app_main env boot events _ _ rfl (by simp [precededByB, teardown])

theorem listener_removed_in_order_witness :
    (∀ p, precededBy (.audio_pipeline_terminate esp_adf_env.pipeline)
      (.audio_pipeline_remove_listener p)
      (app_main esp_adf_env boot_ok [sink_status_event 14])) ∧
    (∃ pre, app_main esp_adf_env boot_ok [sink_status_event 14] =
      pre ++ teardown esp_adf_env) :=
  ⟨(listener_removed_in_order esp_adf_env boot_ok [sink_status_event 14]).1,
   (listener_removed_in_order esp_adf_env boot_ok [sink_status_event 14]).2.2.2.2.2
     (by decide) (by decide)⟩

theorem listen_loop_starts_with_listen (env : Env) (events : List Input) :
    ∃ tl, (listen_loop env events).1 = .audio_event_iface_listen env.evt :: tl := by
  cases events with
  | nil => exact ⟨[], rfl⟩
  | cons inp rest =>
    unfold listen_loop
    split <;> exact ⟨_, rfl⟩

/-- C6: a turn of the loop that receives `REPORT_MUSIC_INFO` from
`bt_stream_reader` sets the stored info and the clock of `i2s_stream_writer`
to the reported values whatever format was applied before, issues no call that
stops or dismantles the pipeline (no terminate, unregister, remove-listener,
deinit, destroy, restart), ends with `continue`, and the loop goes on with the
next `audio_event_iface_listen`. -/
theorem format_report_keeps_running (env : Env) (inp : Input) (w : World)
    (rest : List Input)
    (hret : inp.ret = env.ESP_OK)
    (hty : inp.msg.source_type = env.AUDIO_ELEMENT_TYPE_ELEMENT)
    (hsrc : inp.msg.source = env.bt_stream_reader)
    (hcmd : inp.msg.cmd = env.AEL_MSG_CMD_REPORT_MUSIC_INFO) :
    (w.run (loop_body env inp).1).info env.i2s_stream_writer = inp.music_info ∧
    (w.run (loop_body env inp).1).clk env.i2s_stream_writer =
      some (inp.music_info.sample_rates, inp.music_info.bits, inp.music_info.channels) ∧
    (∀ a ∈ (loop_body env inp).1, a.dismantles = false) ∧
    (loop_body env inp).2 = .cont ∧
    listen_loop env (inp :: rest) =
      (.audio_event_iface_listen env.evt :: (loop_body env inp).1 ++ (listen_loop env rest).1,
        (listen_loop env rest).2) ∧
    (∃ tl, (listen_loop env rest).1 = .audio_event_iface_listen env.evt :: tl) := by
  have hlb := loop_body_music_info env inp hret hty hsrc hcmd
  refine ⟨?_, ?_, ?_, ?_, ?_, listen_loop_starts_with_listen env rest⟩
  · rw [hlb]
    simp [run_append, run_error_check, run_apply_music_info]
  · rw [hlb]
    simp [run_append, run_error_check, run_apply_music_info]
  · rw [hlb]
    intro a ha
    simp only [List.mem_append] at ha
    rcases ha with ha | ha
    · exact error_check_dismantles env _ a ha
    · simp only [apply_music_info, List.mem_cons, List.mem_singleton, List.not_mem_nil,
        or_false] at ha
      rcases ha with rfl | rfl | rfl | rfl <;> rfl
  · rw [hlb]
  · conv_lhs => unfold listen_loop
    rw [hlb]

theorem format_report_keeps_running_witness :
    ((World.blank.run (loop_body esp_adf_env (music_info_event ⟨44100, 16, 2⟩)).1).run
        (loop_body esp_adf_env (music_info_event ⟨48000, 16, 2⟩)).1).info
        esp_adf_env.i2s_stream_writer = (music_info_event ⟨48000, 16, 2⟩).music_info ∧
    (loop_body esp_adf_env (music_info_event ⟨48000, 16, 2⟩)).2 = .cont :=
  ⟨(format_report_keeps_running esp_adf_env (music_info_event ⟨48000, 16, 2⟩)
      (World.blank.run (loop_body esp_adf_env (music_info_event ⟨44100, 16, 2⟩)).1)
      [] rfl rfl rfl rfl).1,
   (format_report_keeps_running esp_adf_env (music_info_event ⟨48000, 16, 2⟩)
      (World.blank.run (loop_body esp_adf_env (music_info_event ⟨44100, 16, 2⟩)).1)
      [] rfl rfl rfl rfl).2.2.2.1⟩

/-- C8: processing the same `REPORT_MUSIC_INFO` message from `bt_stream_reader`
a second time leaves the stored infos and the configured clocks exactly as they
are after the first time. -/
theorem format_application_idempotent (env : Env) (inp : Input) (w : World)
    (hret : inp.ret = env.ESP_OK)
    (hty : inp.msg.source_type = env.AUDIO_ELEMENT_TYPE_ELEMENT)
    (hsrc : inp.msg.source = env.bt_stream_reader)
    (hcmd : inp.msg.cmd = env.AEL_MSG_CMD_REPORT_MUSIC_INFO) :
    (w.run (loop_body env inp).1).run (loop_body env inp).1 = w.run (loop_body env inp).1 := by
  rw [loop_body_music_info env inp hret hty hsrc hcmd]
  simp only [run_append, run_error_check, run_apply_music_info]
  congr 1
  · funext h
    split <;> rfl
  · funext h
    split <;> rfl

theorem format_application_idempotent_witness :
    ((World.blank.run (loop_body esp_adf_env (music_info_event ⟨44100, 16, 2⟩)).1).run
        (loop_body esp_adf_env (music_info_event ⟨44100, 16, 2⟩)).1) =
      World.blank.run (loop_body esp_adf_env (music_info_event ⟨44100, 16, 2⟩)).1 :=
  format_application_idempotent esp_adf_env (music_info_event ⟨44100, 16, 2⟩) World.blank
    rfl rfl rfl rfl

theorem error_check_no_restart (env : Env) (msg : audio_event_iface_msg_t) :
    Action.esp_restart ∉ error_check env msg := by
  unfold error_check
  split <;> simp

theorem touch_branch_no_restart (env : Env) (msg : audio_event_iface_msg_t) :
    Action.esp_restart ∉ touch_branch env msg := by
  unfold touch_branch
  split_ifs <;> simp

/-- C7: provided the header gives `AEL_MSG_CMD_REPORT_STATUS` and
`AEL_MSG_CMD_REPORT_MUSIC_INFO` different values and the source type of elements
differs from the id of the bluetooth peripheral: a `REPORT_STATUS` message from
`i2s_stream_writer` with payload `STOPPED` or `FINISHED` ends the turn with
`break` without a restart, and the program goes on with the teardown code; a
`REPORT_STATUS` message from an element other than `i2s_stream_writer`, or with
a payload that is neither `STOPPED` nor `FINISHED`, ends the turn without
leaving the loop. -/
theorem stop_status_leaves_loop (env : Env)
    (hcmds : env.AEL_MSG_CMD_REPORT_STATUS ≠ env.AEL_MSG_CMD_REPORT_MUSIC_INFO)
    (htypes : env.AUDIO_ELEMENT_TYPE_ELEMENT ≠ env.PERIPH_ID_BLUETOOTH) :
    (∀ (inp : Input) (rest : List Input), inp.ret = env.ESP_OK →
      inp.msg.source_type = env.AUDIO_ELEMENT_TYPE_ELEMENT →
      inp.msg.source = env.i2s_stream_writer →
      inp.msg.cmd = env.AEL_MSG_CMD_REPORT_STATUS →
      (inp.msg.data = env.AEL_STATUS_STATE_STOPPED ∨
        inp.msg.data = env.AEL_STATUS_STATE_FINISHED) →
      (loop_body env inp).2 = .brk ∧ Action.esp_restart ∉ (loop_body env inp).1 ∧
      loop_and_teardown env (inp :: rest) =
        .audio_event_iface_listen env.evt :: (loop_body env inp).1 ++ teardown env) ∧
    (∀ (inp : Input), inp.ret = env.ESP_OK →
      inp.msg.source_type = env.AUDIO_ELEMENT_TYPE_ELEMENT →
      inp.msg.cmd = env.AEL_MSG_CMD_REPORT_STATUS →
      (inp.msg.source ≠ env.i2s_stream_writer ∨
        (inp.msg.data ≠ env.AEL_STATUS_STATE_STOPPED ∧
          inp.msg.data ≠ env.AEL_STATUS_STATE_FINISHED)) →
      (loop_body env inp).2 = .cont) := by
  constructor
  · intro inp rest hret hty hsrc hcmd hdata
    have hlb : loop_body env inp =
        (error_check env inp.msg ++ touch_branch env inp.msg ++
          [.ESP_LOGW "[ * ] Stop event received" []], .brk) := by
      simp [loop_body, is_music_info, is_disconnect, is_stop, hret, hty, hsrc, hcmd, hcmds,
        htypes, hdata]
    refine ⟨by rw [hlb], ?_, ?_⟩
    · rw [hlb]
      simp [error_check_no_restart, touch_branch_no_restart]
    · simp [loop_and_teardown, listen_loop, hlb]
  · intro inp hret hty hcmd hother
    have hstop : is_stop env inp.msg = false := by
      rcases hother with h | ⟨h1, h2⟩
      · simp [is_stop, h]
      · simp [is_stop, h1, h2]
    simp [loop_body, is_music_info, is_disconnect, hstop, hret, hty, hcmd, hcmds, htypes]

theorem stop_status_leaves_loop_witness :
    ((loop_body esp_adf_env (sink_status_event 14)).2 = .brk ∧
      Action.esp_restart ∉ (loop_body esp_adf_env (sink_status_event 14)).1 ∧
      loop_and_teardown esp_adf_env (sink_status_event 14 :: []) =
        .audio_event_iface_listen esp_adf_env.evt ::
          (loop_body esp_adf_env (sink_status_event 14)).1 ++ teardown esp_adf_env) ∧
    (loop_body esp_adf_env (sink_status_event 12)).2 = .cont :=
  ⟨(stop_status_leaves_loop esp_adf_env (by decide) (by decide)).1 (sink_status_event 14) []
      rfl rfl rfl rfl (Or.inl rfl),
   (stop_status_leaves_loop esp_adf_env (by decide) (by decide)).2 (sink_status_event 12)
      rfl rfl rfl (Or.inr ⟨by decide, by decide⟩)⟩

/-- C10: whenever `app_main` gets past the NVS stage, the first
`audio_pipeline_link` call of its trace links `"bt"`, `"equalizer"`, `"i2s"`
(three names), the names registered before it are `"bt"`, `"i2s"`,
`"equalizer"` for `bt_stream_reader`, `i2s_stream_writer`, `equalizer`, the
link list is a simple path over these registrations, and it resolves to the
chain `bt_stream_reader`, `equalizer`, `i2s_stream_writer`. -/
theorem link_list_simple_path (env : Env) (boot : Boot) (events : List Input)
    (hboot : (nvs_stage env boot).2 = false) :
    first_link (app_main env boot events) = some (["bt", "equalizer", "i2s"], 3) ∧
    registered_before_link (app_main env boot events) =
      [("bt", env.bt_stream_reader), ("i2s", env.i2s_stream_writer),
       ("equalizer", env.equalizer)] ∧
    simple_path (registered_before_link (app_main env boot events))
      ["bt", "equalizer", "i2s"] ∧
    ["bt", "equalizer", "i2s"].map
        (lookup_element (registered_before_link (app_main env boot events))) =
      [some env.bt_stream_reader, some env.equalizer, some env.i2s_stream_writer] := by
  have hreg : registered_before_link (app_main env boot events) =
      [("bt", env.bt_stream_reader), ("i2s", env.i2s_stream_writer),
       ("equalizer", env.equalizer)] := by
    unfold app_main nvs_stage at *
    split_ifs at hboot ⊢ <;>
      simp [setup, create_stage, register_stage, registered_before_link] at hboot ⊢
  have hlink : first_link (app_main env boot events) =
      some (["bt", "equalizer", "i2s"], 3) := by
    unfold app_main nvs_stage at *
    split_ifs at hboot ⊢ <;>
      simp [setup, create_stage, register_stage, first_link] at hboot ⊢
  refine ⟨hlink, hreg, ?_, ?_⟩
  · rw [hreg]
    simp [simple_path]
  · rw [hreg]
    simp [lookup_element, List.find?]

theorem link_list_simple_path_witness :
    first_link (app_main esp_adf_env boot_ok []) = some (["bt", "equalizer", "i2s"], 3) ∧
    simple_path (registered_before_link (app_main esp_adf_env boot_ok []))
      ["bt", "equalizer", "i2s"] :=
  ⟨(link_list_simple_path esp_adf_env boot_ok [] (by decide)).1,
   (link_list_simple_path esp_adf_env boot_ok [] (by decide)).2.2.1⟩

theorem error_check_filter_dismantles (env : Env) (msg : audio_event_iface_msg_t) :
    (error_check env msg).filter Action.dismantles = [] := by
  unfold error_check
  split <;> simp [Action.dismantles]

theorem touch_branch_filter_dismantles (env : Env) (msg : audio_event_iface_msg_t) :
    (touch_branch env msg).filter Action.dismantles = [] := by
  unfold touch_branch
  split_ifs <;> simp [Action.dismantles]

/-- For any numbering in which the bluetooth id differs from the element type:
in the turn that receives `PERIPH_BLUETOOTH_DISCONNECTED` from `bt_periph`, the
only dismantling call is `esp_restart`, and the turn ends with `break` only if
`esp_restart()` returns. -/
theorem disconnect_restarts_first (env : Env) (inp : Input)
    (htypes : env.PERIPH_ID_BLUETOOTH ≠ env.AUDIO_ELEMENT_TYPE_ELEMENT)
    (hret : inp.ret = env.ESP_OK)
    (hty : inp.msg.source_type = env.PERIPH_ID_BLUETOOTH)
    (hsrc : inp.msg.source = env.bt_periph)
    (hcmd : inp.msg.cmd = env.PERIPH_BLUETOOTH_DISCONNECTED) :
    (loop_body env inp).1.filter Action.dismantles = [.esp_restart] ∧
    (loop_body env inp).2 = if env.esp_restart_returns then .brk else .halt := by
  have hlb : loop_body env inp =
      (error_check env inp.msg ++ touch_branch env inp.msg ++
        [.ESP_LOGW "[ * ] Bluetooth disconnected" [], .ESP_LOGW "[ * ] ESP RESTARTING" [],
         .esp_restart],
       if env.esp_restart_returns then .brk else .halt) := by
    simp [loop_body, is_music_info, is_disconnect, hret, hty, hsrc, hcmd, htypes]
  rw [hlb]
  simp [List.filter_append, error_check_filter_dismantles, touch_branch_filter_dismantles,
    Action.dismantles]

/-- Whenever the equalizer handle differs from the two other element handles,
no trace of `app_main` holds an `audio_pipeline_unregister` call for the
equalizer. -/
theorem equalizer_never_unregistered (env : Env) (boot : Boot) (events : List Input)
    (h1 : env.equalizer ≠ env.bt_stream_reader)
    (h2 : env.equalizer ≠ env.i2s_stream_writer) (p : Nat) :
    Action.audio_pipeline_unregister p env.equalizer ∉ app_main env boot events := by
  intro hmem
  obtain ⟨A, hA, hshape | hshape⟩ := app_main_shape env boot events
  · rw [hshape] at hmem
    exact Bool.noConfusion ((hA _ hmem).symm.trans rfl)
  · rw [hshape, List.mem_append] at hmem
    rcases hmem with hmem | hmem
    · exact Bool.noConfusion ((hA _ hmem).symm.trans rfl)
    · simp [teardown, h1, h2] at hmem

/-- C2: on a disconnect message from `bt_periph`, `esp_restart` is issued before
any teardown call.  With the restart not returning, `esp_restart` is the only
dismantling call of the whole trace; if it did return, the teardown calls would
all come after it. -/
theorem restart_precedes_teardown :
    (app_main esp_adf_env boot_ok [disconnect_event]).filter Action.dismantles =
      [.esp_restart] ∧
    (app_main esp_adf_env_returning boot_ok [disconnect_event]).filter Action.dismantles =
      [.esp_restart,
       .audio_pipeline_terminate 1001,
       .audio_pipeline_unregister 1001 1004,
       .audio_pipeline_unregister 1001 1003,
       .audio_pipeline_remove_listener 1001,
       .esp_periph_set_stop_all 1005,
       .audio_event_iface_remove_listener 1009 1007,
       .audio_event_iface_destroy 1007,
       .audio_pipeline_deinit 1001,
       .audio_element_deinit 1004,
       .audio_element_deinit 1003,
       .audio_element_deinit 1002,
       .esp_periph_set_destroy 1005,
       .bluetooth_service_destroy] := by
  constructor <;> decide

/-- C3: in the run that ends with the sink reporting `STOPPED`, the three
elements `bt_stream_reader` (1004), `i2s_stream_writer` (1003) and `equalizer`
(1002) are registered, and the teardown calls are the ones listed: the
equalizer is passed to `audio_element_deinit` although no
`audio_pipeline_unregister` call was made for it. -/
theorem equalizer_deinit_without_unregister :
    registered_before_link (app_main esp_adf_env boot_ok [sink_status_event 14]) =
      [("bt", 1004), ("i2s", 1003), ("equalizer", 1002)] ∧
    (app_main esp_adf_env boot_ok [sink_status_event 14]).filter Action.in_teardown =
      [.audio_pipeline_terminate 1001,
       .audio_pipeline_unregister 1001 1004,
       .audio_pipeline_unregister 1001 1003,
       .audio_pipeline_remove_listener 1001,
       .esp_periph_set_stop_all 1005,
       .audio_event_iface_remove_listener 1009 1007,
       .audio_event_iface_destroy 1007,
       .audio_pipeline_deinit 1001,
       .audio_element_deinit 1004,
       .audio_element_deinit 1003,
       .audio_element_deinit 1002,
       .esp_periph_set_destroy 1005,
       .bluetooth_service_destroy] ∧
    (∀ p, Action.audio_pipeline_unregister p esp_adf_env.equalizer ∉
      app_main esp_adf_env boot_ok [sink_status_event 14]) := by
  refine ⟨by decide, by decide, ?_⟩
  intro p hmem
  have hfilter : Action.audio_pipeline_unregister p esp_adf_env.equalizer ∈
      (app_main esp_adf_env boot_ok [sink_status_event 14]).filter Action.in_teardown :=
    List.mem_filter.mpr ⟨hmem, rfl⟩
  have hlist : (app_main esp_adf_env boot_ok [sink_status_event 14]).filter
      Action.in_teardown =
      [.audio_pipeline_terminate 1001,
       .audio_pipeline_unregister 1001 1004,
       .audio_pipeline_unregister 1001 1003,
       .audio_pipeline_remove_listener 1001,
       .esp_periph_set_stop_all 1005,
       .audio_event_iface_remove_listener 1009 1007,
       .audio_event_iface_destroy 1007,
       .audio_pipeline_deinit 1001,
       .audio_element_deinit 1004,
       .audio_element_deinit 1003,
       .audio_element_deinit 1002,
       .esp_periph_set_destroy 1005,
       .bluetooth_service_destroy] := by decide
  rw [hlist] at hfilter
  simp [esp_adf_env] at hfilter

/-- C4: with the numbering of the ESP-ADF headers, a tap on a touch pad that is
none of the four buttons makes the turn of the loop emit the error log of
line 122 (the tap command and `AEL_MSG_CMD_ERROR` are both 1, and line 121 does
not look at the source type); the turn issues nothing else and ends without
leaving the loop. -/
theorem unknown_tap_logs_error :
    unknown_tap_event.ret = esp_adf_env.ESP_OK ∧
    unknown_tap_event.msg.source_type = esp_adf_env.PERIPH_ID_TOUCH ∧
    unknown_tap_event.msg.cmd = esp_adf_env.PERIPH_TOUCH_TAP ∧
    unknown_tap_event.msg.source = esp_adf_env.touch_periph ∧
    unknown_tap_event.msg.data ≠ esp_adf_env.get_input_play_id ∧
    unknown_tap_event.msg.data ≠ esp_adf_env.get_input_set_id ∧
    unknown_tap_event.msg.data ≠ esp_adf_env.get_input_volup_id ∧
    unknown_tap_event.msg.data ≠ esp_adf_env.get_input_voldown_id ∧
    loop_body esp_adf_env unknown_tap_event =
      ([.ESP_LOGE
          "[ * ] Action command error: src_type:%d, source:%p cmd:%d, data:%p, data_len:%d"
          [1048578, 1008, 1, 5, 0]], .cont) := by
  decide

/-- For any numbering in which the touch id differs from the element type and
from the bluetooth id: a tap that is none of the four buttons makes the turn
issue exactly what the error check of lines 121-124 issues, and continue; and
the error check issues nothing exactly when the tap command differs from
`AEL_MSG_CMD_ERROR`. -/
theorem unknown_tap_frame (env : Env) (inp : Input)
    (h1 : env.PERIPH_ID_TOUCH ≠ env.AUDIO_ELEMENT_TYPE_ELEMENT)
    (h2 : env.PERIPH_ID_TOUCH ≠ env.PERIPH_ID_BLUETOOTH)
    (hret : inp.ret = env.ESP_OK)
    (hty : inp.msg.source_type = env.PERIPH_ID_TOUCH)
    (hcmd : inp.msg.cmd = env.PERIPH_TOUCH_TAP)
    (hplay : inp.msg.data ≠ env.get_input_play_id)
    (hset : inp.msg.data ≠ env.get_input_set_id)
    (hup : inp.msg.data ≠ env.get_input_volup_id)
    (hdown : inp.msg.data ≠ env.get_input_voldown_id) :
    loop_body env inp = (error_check env inp.msg, .cont) ∧
    (error_check env inp.msg = [] ↔ env.PERIPH_TOUCH_TAP ≠ env.AEL_MSG_CMD_ERROR) := by
  constructor
  · simp [loop_body, is_music_info, is_disconnect, is_stop, touch_branch, hret, hty, hcmd,
      h1, h2, hplay, hset, hup, hdown]
  · unfold error_check
    rw [hcmd]
    split <;> simp_all

/-- C9: the array handed to `equalizer_init` holds 2, not 2.5, in the second
band of each channel: the floating constant `2.5` of the initializer is
converted to `int`. -/
theorem set_gain_is_truncated :
    set_gain = [5, 2, 1, 0, 0, 0, 0, 0, 0, 0, 5, 2, 1, 0, 0, 0, 0, 0, 0, 0] ∧
    set_gain_initializer.map CConst.value =
      [5, 5/2, 1, 0, 0, 0, 0, 0, 0, 0, 5, 5/2, 1, 0, 0, 0, 0, 0, 0, 0] ∧
    ((set_gain.getD 1 0 : Int) : ℚ) ≠ (set_gain_initializer.getD 1 (.int 0)).value ∧
    ((set_gain.getD 11 0 : Int) : ℚ) ≠ (set_gain_initializer.getD 11 (.int 0)).value ∧
    Action.equalizer_init [5, 2, 1, 0, 0, 0, 0, 0, 0, 0, 5, 2, 1, 0, 0, 0, 0, 0, 0, 0] ∈
      app_main esp_adf_env boot_ok [] := by
  refine ⟨by decide, ?_, ?_, ?_, by decide⟩
  · simp only [set_gain_initializer, List.map, CConst.value]
    norm_num
  · simp only [set_gain, set_gain_initializer, List.map, List.getD_cons_succ, List.getD_cons_zero,
      CConst.value, CConst.to_int]
    have h : Int.tdiv 25 10 = 2 := by decide
    norm_num [h]
  · simp only [set_gain, set_gain_initializer, List.map, List.getD_cons_succ, List.getD_cons_zero,
      CConst.value, CConst.to_int]
    have h : Int.tdiv 25 10 = 2 := by decide
    norm_num [h]

end BluetoothSpeaker
